import Mathlib

/-!
Verification of the letter-store service in `src/server.js` (an Express +
MongoDB application). We embed the Mongo collection of letters as a
`List Letter` (the `secretCode` field carries a unique index in the schema,
so well-formed stores have pairwise distinct codes), and each request
handler as a pure function from the current time, the request data and the
store to the HTTP response together with the updated store. Every call to
`Date.now()` / `new Date()` inside one handler invocation is the request
time `now`, a `Nat` of milliseconds.
-/

set_option autoImplicit false

namespace LetterStore

/-- The `reply` sub-document of the letter schema:
`{ text, signature, image, sent }`. -/
structure Reply where
  text : String
  signature : String
  image : Option String
  sent : Nat
deriving Repr, DecidableEq

/-- The mongoose `letterSchema`: `secretCode` (unique), `from`, `to`,
`text`, `signature` are required strings; `image` is an optional string;
`sent` defaults to the creation time; `expires` is required; `hasReply`
defaults to `false`; `reply` is an optional sub-document. -/
structure Letter where
  secretCode : String
  «from» : String
  «to» : String
  text : String
  signature : String
  image : Option String
  sent : Nat
  expires : Nat
  hasReply : Bool
  reply : Option Reply
deriving Repr, DecidableEq

/-- A JSON HTTP response as the handlers produce it: either a status with a
`{ message }` body, the `201 { message, expiresAt }` body of a successful
create, or `res.json(letter)` (status 200) returning the full record. -/
inductive HttpResponse where
  | json : Nat → String → HttpResponse
  | jsonExpires : Nat → String → Nat → HttpResponse
  | jsonLetter : Letter → HttpResponse
deriving Repr, DecidableEq

/-- The HTTP status code of a response (`res.json` defaults to 200). -/
def HttpResponse.status : HttpResponse → Nat
  | .json s _ => s
  | .jsonExpires s _ _ => s
  | .jsonLetter _ => 200

/-- JavaScript truthiness of an optional string field: `!x` holds when the
field is absent (`undefined`) or the empty string. -/
def falsy : Option String → Bool
  | none => true
  | some s => s.isEmpty

/-- `image && image.length > 5000000`: the image is present, truthy, and its
encoded length exceeds the limit. -/
def imageTooLarge : Option String → Bool
  | none => false
  | some s => !s.isEmpty && decide (s.length > 5000000)

/-- `Letter.findOne({ secretCode })`: the first document in the collection
whose `secretCode` equals the queried code. -/
def findOne (store : List Letter) (secretCode : String) : Option Letter :=
  store.find? (fun l => l.secretCode == secretCode)

/-- `Letter.findByIdAndDelete(letter._id)` where `letter` was obtained by
`findOne store code`: removes the first document matching the code. -/
def deleteFirst (store : List Letter) (code : String) : List Letter :=
  match store with
  | [] => []
  | m :: rest => if m.secretCode == code then rest else m :: deleteFirst rest code

/-- `letter.save()` where `letter` was obtained by `findOne store code` and
then mutated: replaces the first document matching the code. -/
def updateFirst (store : List Letter) (code : String) (l : Letter) : List Letter :=
  match store with
  | [] => []
  | m :: rest => if m.secretCode == code then l :: rest else m :: updateFirst rest code l

/-- The body of a POST `/letters` request:
`{ from, to, secretCode, text, signature, image }`, each possibly absent. -/
structure CreateRequest where
  «from» : Option String
  «to» : Option String
  secretCode : Option String
  text : Option String
  signature : Option String
  image : Option String
deriving Repr, DecidableEq

/-- `createLetterHandler`: validates the required fields and the image
size, rejects a `secretCode` already present in the collection, and
otherwise persists a new letter with `expires = now + 24h` and `sent = now`
(the schema default), returning `201 { message, expiresAt }`. -/
def createLetterHandler (now : Nat) (req : CreateRequest) (store : List Letter) :
    HttpResponse × List Letter :=
  if falsy req.«from» || falsy req.«to» || falsy req.secretCode ||
      falsy req.text || falsy req.signature then
    (.json 400 "All fields are required", store)
  else if imageTooLarge req.image then
    (.json 400 "Image too large. Please use a smaller image.", store)
  else
    let code := req.secretCode.getD ""
    match findOne store code with
    | some _ => (.json 400 "Secret code already in use", store)
    | none =>
      let expires := now + 24 * 60 * 60 * 1000
      let newLetter : Letter :=
        { secretCode := code
          «from» := req.«from».getD ""
          «to» := req.«to».getD ""
          text := req.text.getD ""
          signature := req.signature.getD ""
          image := req.image
          sent := now
          expires := expires
          hasReply := false
          reply := none }
      (.jsonExpires 201 "Letter sent successfully" expires, store ++ [newLetter])

/-- `getLetterHandler`: looks the code up; absent gives
`404 "No letter found with this code"`; a found letter with
`now > expires` is deleted and gives `404 "Letter has expired"`; otherwise
the full record is returned. -/
def getLetterHandler (now : Nat) (secretCode : String) (store : List Letter) :
    HttpResponse × List Letter :=
  if secretCode.isEmpty then
    (.json 400 "Secret code is required", store)
  else
    match findOne store secretCode with
    | none => (.json 404 "No letter found with this code", store)
    | some letter =>
      if now > letter.expires then
        (.json 404 "Letter has expired", deleteFirst store secretCode)
      else
        (.jsonLetter letter, store)

/-- The body of a POST `/letters/:secretCode/reply` request. -/
structure ReplyRequest where
  text : Option String
  signature : Option String
  image : Option String
deriving Repr, DecidableEq

/-- `replyLetterHandler`: validates `text`/`signature` and the image size,
rejects an unknown code with 404 and an expired letter with
`400 "Letter has expired"`, and otherwise sets `hasReply = true`,
overwrites the `reply` sub-document with `{text, signature, image,
sent: now}` and saves the letter. -/
def replyLetterHandler (now : Nat) (secretCode : String) (req : ReplyRequest)
    (store : List Letter) : HttpResponse × List Letter :=
  if falsy req.text || falsy req.signature then
    (.json 400 "Text and signature are required", store)
  else if imageTooLarge req.image then
    (.json 400 "Image too large. Please use a smaller image.", store)
  else
    match findOne store secretCode with
    | none => (.json 404 "No letter found with this code", store)
    | some letter =>
      if now > letter.expires then
        (.json 400 "Letter has expired", store)
      else
        let letter' : Letter :=
          { letter with
            hasReply := true
            reply := some
              { text := req.text.getD ""
                signature := req.signature.getD ""
                image := req.image
                sent := now } }
        (.json 200 "Reply sent successfully", updateFirst store secretCode letter')

/-- `cleanupExpiredLetters`: `Letter.deleteMany({ expires: { $lt: now } })`
deletes every document with `expires < now` and reports the number of
deleted documents. -/
def cleanupExpiredLetters (now : Nat) (store : List Letter) : Nat × List Letter :=
  let remaining := store.filter (fun l => !decide (l.expires < now))
  (store.length - remaining.length, remaining)

/-! ### Helper lemmas about the store operations -/

theorem findOne_cons (m : Letter) (rest : List Letter) (code : String) :
    findOne (m :: rest) code =
      if m.secretCode == code then some m else findOne rest code := by
  by_cases h : m.secretCode == code
  · simp [findOne, List.find?_cons_of_pos, h]
  · simp [findOne, List.find?_cons_of_neg, h]

theorem findOne_append {s t : List Letter} {code : String}
    (h : findOne s code = none) :
    findOne (s ++ t) code = findOne t code := by
  induction s with
  | nil => simp [findOne]
  | cons m rest ih =>
    rw [findOne_cons] at h
    rw [List.cons_append, findOne_cons]
    by_cases hm : m.secretCode == code
    · rw [if_pos hm] at h; exact absurd h (by simp)
    · rw [if_neg hm] at h ⊢; exact ih h

theorem findOne_split {store : List Letter} {code : String} {l : Letter}
    (h : findOne store code = some l) :
    l.secretCode = code ∧
      ∃ pre post, store = pre ++ l :: post ∧ findOne pre code = none := by
  induction store with
  | nil => simp [findOne] at h
  | cons m rest ih =>
    rw [findOne_cons] at h
    by_cases hm : m.secretCode == code
    · rw [if_pos hm] at h
      cases h
      exact ⟨eq_of_beq hm, [], rest, rfl, rfl⟩
    · rw [if_neg hm] at h
      obtain ⟨hl, pre, post, hst, hpre⟩ := ih h
      exact ⟨hl, m :: pre, post, by rw [hst, List.cons_append],
        by rw [findOne_cons, if_neg hm, hpre]⟩

theorem updateFirst_split {pre post : List Letter} {code : String} {l l' : Letter}
    (hpre : findOne pre code = none) (hl : l.secretCode = code) :
    updateFirst (pre ++ l :: post) code l' = pre ++ l' :: post := by
  induction pre with
  | nil => simp [updateFirst, hl]
  | cons m rest ih =>
    rw [findOne_cons] at hpre
    by_cases hm : m.secretCode == code
    · rw [if_pos hm] at hpre; exact absurd hpre (by simp)
    · rw [if_neg hm] at hpre
      rw [List.cons_append, updateFirst, if_neg hm, ih hpre, List.cons_append]

theorem deleteFirst_split {pre post : List Letter} {code : String} {l : Letter}
    (hpre : findOne pre code = none) (hl : l.secretCode = code) :
    deleteFirst (pre ++ l :: post) code = pre ++ post := by
  induction pre with
  | nil => simp [deleteFirst, hl]
  | cons m rest ih =>
    rw [findOne_cons] at hpre
    by_cases hm : m.secretCode == code
    · rw [if_pos hm] at hpre; exact absurd hpre (by simp)
    · rw [if_neg hm] at hpre
      rw [List.cons_append, deleteFirst, if_neg hm, ih hpre, List.cons_append]

theorem findOne_eq_none_of_forall {s : List Letter} {code : String}
    (h : ∀ m ∈ s, m.secretCode ≠ code) : findOne s code = none := by
  rw [findOne, List.find?_eq_none]
  intro x hx
  simp [h x hx]

theorem forall_of_findOne_eq_none {s : List Letter} {code : String}
    (h : findOne s code = none) : ∀ m ∈ s, m.secretCode ≠ code := by
  rw [findOne, List.find?_eq_none] at h
  intro m hm
  simpa using h m hm

/-! ### Claim theorems -/

/-- C1: the claim says that once a letter has `hasReply = true`, a further
Reply call on its secret code does not succeed and does not replace the
stored reply sub-record. The code contradicts this: `replyLetterHandler`
never inspects `hasReply` and unconditionally overwrites `reply`. At a
letter that already carries a reply, a second Reply succeeds with
`200 "Reply sent successfully"` and the stored reply sub-record is
replaced by the new one. -/
theorem C1_second_reply_accepted_and_overwrites :
    replyLetterHandler 50 "X"
      { text := some "second", signature := some "S2", image := none }
      [{ secretCode := "X", «from» := "A", «to» := "B", text := "hi",
         signature := "A", image := none, sent := 0, expires := 100,
         hasReply := true,
         reply := some { text := "first", signature := "S1", image := none,
                         sent := 10 } }]
      = (.json 200 "Reply sent successfully",
         [{ secretCode := "X", «from» := "A", «to» := "B", text := "hi",
            signature := "A", image := none, sent := 0, expires := 100,
            hasReply := true,
            reply := some { text := "second", signature := "S2", image := none,
                            sent := 50 } }]) := by
  decide

/-- C2 counterexample: the claim says a `secretCode` that maps only to an
expired (dead) record does not cause a `Conflict`. But the existence check
`Letter.findOne({ secretCode })` ignores `expires`: submitting at time 100
against a store whose only record under "X" expired at time 0 still
returns `400 "Secret code already in use"`. -/
theorem C2_expired_record_still_conflicts :
    createLetterHandler 100
      { «from» := some "A", «to» := some "B", secretCode := some "X",
        text := some "hi", signature := some "A", image := none }
      [{ secretCode := "X", «from» := "C", «to» := "D", text := "old",
         signature := "C", image := none, sent := 0, expires := 0,
         hasReply := false, reply := none }]
      = (.json 400 "Secret code already in use",
         [{ secretCode := "X", «from» := "C", «to» := "D", text := "old",
            signature := "C", image := none, sent := 0, expires := 0,
            hasReply := false, reply := none }]) := by
  decide

/-- C2 (amended): for a syntactically valid submission, Submit fails with
`Conflict` exactly when the supplied `secretCode` already maps to any
stored letter, live or expired, and in that case the store is unchanged
(the existing letter is never overwritten). -/
theorem C2_conflict_iff_code_present (now : Nat) (req : CreateRequest)
    (store : List Letter)
    (h1 : falsy req.«from» = false) (h2 : falsy req.«to» = false)
    (h3 : falsy req.secretCode = false) (h4 : falsy req.text = false)
    (h5 : falsy req.signature = false)
    (hi : imageTooLarge req.image = false) :
    createLetterHandler now req store
        = (.json 400 "Secret code already in use", store)
      ↔ (findOne store (req.secretCode.getD "")).isSome := by
  simp only [createLetterHandler, h1, h2, h3, h4, h5, hi, Bool.or_self,
    Bool.or_false, Bool.false_or, Bool.false_eq_true, if_false]
  cases hf : findOne store (req.secretCode.getD "") with
  | none => simp
  | some l => simp

/-- C2 witness: the amended conflict theorem applied at a concrete store
holding a live letter under the submitted code. -/
theorem C2_conflict_witness :
    createLetterHandler 100
      { «from» := some "A", «to» := some "B", secretCode := some "X",
        text := some "hi", signature := some "A", image := none }
      [{ secretCode := "X", «from» := "C", «to» := "D", text := "old",
         signature := "C", image := none, sent := 0, expires := 500,
         hasReply := false, reply := none }]
      = (.json 400 "Secret code already in use",
         [{ secretCode := "X", «from» := "C", «to» := "D", text := "old",
            signature := "C", image := none, sent := 0, expires := 500,
            hasReply := false, reply := none }]) :=
  (C2_conflict_iff_code_present 100
    { «from» := some "A", «to» := some "B", secretCode := some "X",
      text := some "hi", signature := some "A", image := none }
    [{ secretCode := "X", «from» := "C", «to» := "D", text := "old",
       signature := "C", image := none, sent := 0, expires := 500,
       hasReply := false, reply := none }]
    (by decide) (by decide) (by decide) (by decide) (by decide)
    (by decide)).mpr (by decide)

/-- C3 counterexample: the claim says the response for an expired letter is
identical to the response for a code that never existed. The statuses
agree (404) but the bodies differ: the expired store answers
`"Letter has expired"` while the empty store answers
`"No letter found with this code"`. -/
theorem C3_expired_response_differs_from_absent :
    (getLetterHandler 100 "X"
      [{ secretCode := "X", «from» := "A", «to» := "B", text := "hi",
         signature := "A", image := none, sent := 0, expires := 0,
         hasReply := false, reply := none }]).1
      ≠ (getLetterHandler 100 "X" []).1 := by
  decide

/-- C3 (amended): on the read path an expired letter and a never-created
code both yield status 404, but the message bodies differ
(`"Letter has expired"` versus `"No letter found with this code"`), so the
caller can distinguish past existence from non-existence by the body. -/
theorem C3_expired_vs_absent (now : Nat) (code : String) (l : Letter)
    (s1 s2 : List Letter) (hc : code.isEmpty = false)
    (h1 : findOne s1 code = some l) (he : now > l.expires)
    (h2 : findOne s2 code = none) :
    (getLetterHandler now code s1).1 = .json 404 "Letter has expired" ∧
    (getLetterHandler now code s2).1
        = .json 404 "No letter found with this code" ∧
    ((getLetterHandler now code s1).1).status
        = ((getLetterHandler now code s2).1).status := by
  refine ⟨?_, ?_, ?_⟩ <;>
    simp [getLetterHandler, hc, h1, h2, he, HttpResponse.status]

/-- C3 witness: the amended read-path theorem applied to a store holding
one expired letter under "X" versus the empty store. -/
theorem C3_expired_vs_absent_witness :
    (getLetterHandler 100 "X"
      [{ secretCode := "X", «from» := "A", «to» := "B", text := "hi",
         signature := "A", image := none, sent := 0, expires := 0,
         hasReply := false, reply := none }]).1
        = .json 404 "Letter has expired" ∧
    (getLetterHandler 100 "X" []).1
        = .json 404 "No letter found with this code" ∧
    ((getLetterHandler 100 "X"
      [{ secretCode := "X", «from» := "A", «to» := "B", text := "hi",
         signature := "A", image := none, sent := 0, expires := 0,
         hasReply := false, reply := none }]).1).status
        = ((getLetterHandler 100 "X" []).1).status :=
  C3_expired_vs_absent 100 "X"
    { secretCode := "X", «from» := "A", «to» := "B", text := "hi",
      signature := "A", image := none, sent := 0, expires := 0,
      hasReply := false, reply := none }
    [{ secretCode := "X", «from» := "A", «to» := "B", text := "hi",
       signature := "A", image := none, sent := 0, expires := 0,
       hasReply := false, reply := none }] []
    (by decide) (by decide) (by decide) (by decide)

/-- C4: Reply on a letter whose `expires` lies strictly in the past fails
with `400 "Letter has expired"` and returns the store exactly as it was:
`hasReply` and `reply` are not mutated and the record is not deleted. -/
theorem C4_reply_after_expiry_rejected (now : Nat) (code : String)
    (req : ReplyRequest) (store : List Letter) (l : Letter)
    (ht : falsy req.text = false) (hs : falsy req.signature = false)
    (hi : imageTooLarge req.image = false)
    (hf : findOne store code = some l) (he : now > l.expires) :
    replyLetterHandler now code req store
      = (.json 400 "Letter has expired", store) := by
  simp [replyLetterHandler, ht, hs, hi, hf, he]

/-- C4 witness: a reply at time 100 to a letter that expired at time 10 is
rejected and the store is unchanged. -/
theorem C4_reply_after_expiry_witness :
    replyLetterHandler 100 "X"
      { text := some "t", signature := some "s", image := none }
      [{ secretCode := "X", «from» := "A", «to» := "B", text := "hi",
         signature := "A", image := none, sent := 0, expires := 10,
         hasReply := false, reply := none }]
      = (.json 400 "Letter has expired",
         [{ secretCode := "X", «from» := "A", «to» := "B", text := "hi",
            signature := "A", image := none, sent := 0, expires := 10,
            hasReply := false, reply := none }]) :=
  C4_reply_after_expiry_rejected 100 "X"
    { text := some "t", signature := some "s", image := none }
    [{ secretCode := "X", «from» := "A", «to» := "B", text := "hi",
       signature := "A", image := none, sent := 0, expires := 10,
       hasReply := false, reply := none }]
    { secretCode := "X", «from» := "A", «to» := "B", text := "hi",
      signature := "A", image := none, sent := 0, expires := 10,
      hasReply := false, reply := none }
    (by decide) (by decide) (by decide) (by decide) (by decide)

/-- C5: round-trip. A valid submission (all required fields truthy, image
within the limit, code not yet in the store) appends one new letter, and a
Retrieve of that code at any time not past its expiry returns exactly that
letter, whose `from`, `to`, `text`, `signature` and `image` are the
submitted values and whose `hasReply` is `false`. -/
theorem C5_submit_then_retrieve (now now2 : Nat) (req : CreateRequest)
    (store : List Letter)
    (h1 : falsy req.«from» = false) (h2 : falsy req.«to» = false)
    (h3 : falsy req.secretCode = false) (h4 : falsy req.text = false)
    (h5 : falsy req.signature = false)
    (hi : imageTooLarge req.image = false)
    (hfree : findOne store (req.secretCode.getD "") = none)
    (hlive : ¬ now2 > now + 24 * 60 * 60 * 1000) :
    ∃ l : Letter,
      (createLetterHandler now req store).2 = store ++ [l] ∧
      getLetterHandler now2 (req.secretCode.getD "")
          (createLetterHandler now req store).2
        = (.jsonLetter l, (createLetterHandler now req store).2) ∧
      req.«from» = some l.«from» ∧ req.«to» = some l.«to» ∧
      req.text = some l.text ∧ req.signature = some l.signature ∧
      l.image = req.image ∧ l.hasReply = false := by
  obtain ⟨c, hsc⟩ : ∃ c, req.secretCode = some c := by
    cases hx : req.secretCode with
    | none => rw [hx] at h3; simp [falsy] at h3
    | some c => exact ⟨c, rfl⟩
  have hc : c.isEmpty = false := by
    rw [hsc] at h3; simpa [falsy] using h3
  obtain ⟨f, hf⟩ : ∃ x, req.«from» = some x := by
    cases hx : req.«from» with
    | none => rw [hx] at h1; simp [falsy] at h1
    | some x => exact ⟨x, rfl⟩
  obtain ⟨t, hto⟩ : ∃ x, req.«to» = some x := by
    cases hx : req.«to» with
    | none => rw [hx] at h2; simp [falsy] at h2
    | some x => exact ⟨x, rfl⟩
  obtain ⟨tx, htx⟩ : ∃ x, req.text = some x := by
    cases hx : req.text with
    | none => rw [hx] at h4; simp [falsy] at h4
    | some x => exact ⟨x, rfl⟩
  obtain ⟨sg, hsg⟩ : ∃ x, req.signature = some x := by
    cases hx : req.signature with
    | none => rw [hx] at h5; simp [falsy] at h5
    | some x => exact ⟨x, rfl⟩
  refine ⟨{ secretCode := req.secretCode.getD ""
            «from» := req.«from».getD ""
            «to» := req.«to».getD ""
            text := req.text.getD ""
            signature := req.signature.getD ""
            image := req.image
            sent := now
            expires := now + 24 * 60 * 60 * 1000
            hasReply := false
            reply := none }, ?_, ?_, ?_, ?_, ?_, ?_, ?_, ?_⟩
  · simp [createLetterHandler, h1, h2, h3, h4, h5, hi, hfree]
  · have hstore : (createLetterHandler now req store).2
        = store ++ [{ secretCode := req.secretCode.getD ""
                      «from» := req.«from».getD ""
                      «to» := req.«to».getD ""
                      text := req.text.getD ""
                      signature := req.signature.getD ""
                      image := req.image
                      sent := now
                      expires := now + 24 * 60 * 60 * 1000
                      hasReply := false
                      reply := none }] := by
      simp [createLetterHandler, h1, h2, h3, h4, h5, hi, hfree]
    rw [hstore]
    have hfree' : findOne store c = none := by
      rw [hsc] at hfree; simpa using hfree
    have hfind : findOne
        (store ++ [{ secretCode := c
                     «from» := req.«from».getD ""
                     «to» := req.«to».getD ""
                     text := req.text.getD ""
                     signature := req.signature.getD ""
                     image := req.image
                     sent := now
                     expires := now + 86400000
                     hasReply := false
                     reply := none }]) c
        = some { secretCode := c
                 «from» := req.«from».getD ""
                 «to» := req.«to».getD ""
                 text := req.text.getD ""
                 signature := req.signature.getD ""
                 image := req.image
                 sent := now
                 expires := now + 86400000
                 hasReply := false
                 reply := none } := by
      rw [findOne_append hfree', findOne_cons]
      simp
    have hnum : (24 * 60 * 60 * 1000 : Nat) = 86400000 := by norm_num
    rw [hnum] at hlive
    have hlive' : ¬ now + 86400000 < now2 := hlive
    simp only [getLetterHandler, hsc, Option.getD_some, hc, Bool.false_eq_true,
      if_false, hnum]
    rw [hfind]
    simp [hlive']
  · simp [hf]
  · simp [hto]
  · simp [htx]
  · simp [hsg]
  · rfl
  · rfl

/-- C5 witness: a concrete valid submission at time 0 retrieved at time 1
returns the submitted letter with no reply. -/
theorem C5_submit_then_retrieve_witness :
    ∃ l : Letter,
      (createLetterHandler 0
        { «from» := some "A", «to» := some "B", secretCode := some "X",
          text := some "hi", signature := some "A", image := none } []).2
          = [] ++ [l] ∧
      getLetterHandler 1 ((some "X").getD "")
          (createLetterHandler 0
            { «from» := some "A", «to» := some "B", secretCode := some "X",
              text := some "hi", signature := some "A", image := none } []).2
        = (.jsonLetter l,
           (createLetterHandler 0
             { «from» := some "A", «to» := some "B", secretCode := some "X",
               text := some "hi", signature := some "A", image := none } []).2) ∧
      some "A" = some l.«from» ∧ some "B" = some l.«to» ∧
      some "hi" = some l.text ∧ some "A" = some l.signature ∧
      l.image = none ∧ l.hasReply = false :=
  C5_submit_then_retrieve 0 1
    { «from» := some "A", «to» := some "B", secretCode := some "X",
      text := some "hi", signature := some "A", image := none } []
    (by decide) (by decide) (by decide) (by decide) (by decide) (by decide)
    (by decide) (by decide)

/-- C6: Retrieve on an unknown code returns 404 with the store unchanged.
Retrieve on a code whose letter has expired returns status 404, deletes the
record (the code is no longer found in the resulting store, given the
pairwise-distinct codes guaranteed by the schema's unique index), and a
second Retrieve of the same code returns 404 with no further state
change. -/
theorem C6_retrieve_notfound_and_lazy_delete (now : Nat) (code : String)
    (store : List Letter) (hc : code.isEmpty = false)
    (hnd : (store.map Letter.secretCode).Nodup) :
    (findOne store code = none →
      getLetterHandler now code store
        = (.json 404 "No letter found with this code", store)) ∧
    ∀ l : Letter, findOne store code = some l → now > l.expires →
      ((getLetterHandler now code store).1).status = 404 ∧
      findOne ((getLetterHandler now code store).2) code = none ∧
      getLetterHandler now code ((getLetterHandler now code store).2)
        = (.json 404 "No letter found with this code",
           (getLetterHandler now code store).2) := by
  constructor
  · intro h
    simp [getLetterHandler, hc, h]
  · intro l hf he
    obtain ⟨hl, pre, post, hst, hpre⟩ := findOne_split hf
    have hget : getLetterHandler now code store
        = (.json 404 "Letter has expired", deleteFirst store code) := by
      simp [getLetterHandler, hc, hf, he]
    have hdel : deleteFirst store code = pre ++ post := by
      rw [hst]; exact deleteFirst_split hpre hl
    have hnone : findOne (pre ++ post) code = none := by
      rw [findOne_append hpre]
      apply findOne_eq_none_of_forall
      intro m hm heq
      rw [hst] at hnd
      have hnd2 : ((l :: post).map Letter.secretCode).Nodup := by
        rw [List.map_append] at hnd
        exact hnd.of_append_right
      have hni : l.secretCode ∉ post.map Letter.secretCode :=
        (List.nodup_cons.mp hnd2).1
      exact hni (by rw [hl, ← heq]; exact List.mem_map_of_mem Letter.secretCode hm)
    refine ⟨by rw [hget]; rfl, ?_, ?_⟩
    · rw [hget]
      simpa [hdel] using hnone
    · rw [hget]
      simp only []
      rw [hdel]
      simp [getLetterHandler, hc, hnone]

/-- C6 witness: on a one-element store whose letter under "X" expired at
time 0, Retrieve at time 100 gives 404, removes the record, and a second
Retrieve gives 404 with no further change. -/
theorem C6_retrieve_witness :
    ((getLetterHandler 100 "X"
      [{ secretCode := "X", «from» := "A", «to» := "B", text := "hi",
         signature := "A", image := none, sent := 0, expires := 0,
         hasReply := false, reply := none }]).1).status = 404 ∧
    findOne ((getLetterHandler 100 "X"
      [{ secretCode := "X", «from» := "A", «to» := "B", text := "hi",
         signature := "A", image := none, sent := 0, expires := 0,
         hasReply := false, reply := none }]).2) "X" = none ∧
    getLetterHandler 100 "X" ((getLetterHandler 100 "X"
      [{ secretCode := "X", «from» := "A", «to» := "B", text := "hi",
         signature := "A", image := none, sent := 0, expires := 0,
         hasReply := false, reply := none }]).2)
      = (.json 404 "No letter found with this code",
         (getLetterHandler 100 "X"
           [{ secretCode := "X", «from» := "A", «to» := "B", text := "hi",
              signature := "A", image := none, sent := 0, expires := 0,
              hasReply := false, reply := none }]).2) :=
  (C6_retrieve_notfound_and_lazy_delete 100 "X"
    [{ secretCode := "X", «from» := "A", «to» := "B", text := "hi",
       signature := "A", image := none, sent := 0, expires := 0,
       hasReply := false, reply := none }]
    (by decide) (by simp)).2
    { secretCode := "X", «from» := "A", «to» := "B", text := "hi",
      signature := "A", image := none, sent := 0, expires := 0,
      hasReply := false, reply := none }
    (by decide) (by decide)

/-- C7: for any store and any time, Sweep keeps exactly the letters whose
`expires` is not strictly before `now` (so it removes exactly the
strictly-before-now set), the survivors form a sublist of the original
store (each survivor unchanged, in order), and a second Sweep at the same
time removes zero additional records and leaves the store fixed. -/
theorem C7_sweep_exact_and_idempotent (now : Nat) (store : List Letter) :
    (∀ l : Letter,
      l ∈ (cleanupExpiredLetters now store).2 ↔ l ∈ store ∧ ¬ l.expires < now) ∧
    List.Sublist (cleanupExpiredLetters now store).2 store ∧
    cleanupExpiredLetters now (cleanupExpiredLetters now store).2
      = (0, (cleanupExpiredLetters now store).2) := by
  refine ⟨?_, ?_, ?_⟩
  · intro l
    simp [cleanupExpiredLetters, List.mem_filter]
  · exact List.filter_sublist store
  · have hfix : (store.filter (fun l => !decide (l.expires < now))).filter
        (fun l => !decide (l.expires < now))
        = store.filter (fun l => !decide (l.expires < now)) :=
      List.filter_eq_self.mpr (fun a ha => (List.mem_filter.mp ha).2)
    simp only [cleanupExpiredLetters]
    rw [hfix, Nat.sub_self]

/-- C8: every successful Submit appends one letter whose `expires` equals
its `sent` timestamp plus exactly 24 hours (86,400,000 ms), and the
`expiresAt` value returned to the caller equals the persisted `expires`.
In the model both timestamps derive from the single request-time clock of
the handler invocation. -/
theorem C8_expires_is_sent_plus_24h (now : Nat) (req : CreateRequest)
    (store : List Letter)
    (h1 : falsy req.«from» = false) (h2 : falsy req.«to» = false)
    (h3 : falsy req.secretCode = false) (h4 : falsy req.text = false)
    (h5 : falsy req.signature = false)
    (hi : imageTooLarge req.image = false)
    (hfree : findOne store (req.secretCode.getD "") = none) :
    ∃ l : Letter,
      (createLetterHandler now req store).2 = store ++ [l] ∧
      l.expires = l.sent + 24 * 60 * 60 * 1000 ∧
      (createLetterHandler now req store).1
        = .jsonExpires 201 "Letter sent successfully" l.expires := by
  refine ⟨{ secretCode := req.secretCode.getD ""
            «from» := req.«from».getD ""
            «to» := req.«to».getD ""
            text := req.text.getD ""
            signature := req.signature.getD ""
            image := req.image
            sent := now
            expires := now + 24 * 60 * 60 * 1000
            hasReply := false
            reply := none }, ?_, rfl, ?_⟩
  · simp [createLetterHandler, h1, h2, h3, h4, h5, hi, hfree]
  · simp [createLetterHandler, h1, h2, h3, h4, h5, hi, hfree]

/-- C8 witness: the expiry theorem applied to a concrete submission at
time 1000 into the empty store. -/
theorem C8_expires_witness :
    ∃ l : Letter,
      (createLetterHandler 1000
        { «from» := some "A", «to» := some "B", secretCode := some "X",
          text := some "hi", signature := some "A", image := none } []).2
          = [] ++ [l] ∧
      l.expires = l.sent + 24 * 60 * 60 * 1000 ∧
      (createLetterHandler 1000
        { «from» := some "A", «to» := some "B", secretCode := some "X",
          text := some "hi", signature := some "A", image := none } []).1
        = .jsonExpires 201 "Letter sent successfully" l.expires :=
  C8_expires_is_sent_plus_24h 1000
    { «from» := some "A", «to» := some "B", secretCode := some "X",
      text := some "hi", signature := some "A", image := none } []
    (by decide) (by decide) (by decide) (by decide) (by decide) (by decide)
    (by decide)

/-- C9: a successful Reply splits the store around the addressed letter:
every letter before and after it is returned exactly as it was, and the
addressed letter is replaced by the same record updated only in `hasReply`
and `reply` (so its `from`, `to`, `text`, `signature`, `image`, `sent`,
`expires` and `secretCode` are untouched). -/
theorem C9_reply_frame (now : Nat) (code : String) (req : ReplyRequest)
    (store : List Letter) (l : Letter)
    (ht : falsy req.text = false) (hs : falsy req.signature = false)
    (hi : imageTooLarge req.image = false)
    (hf : findOne store code = some l) (he : ¬ now > l.expires) :
    ∃ pre post, store = pre ++ l :: post ∧
      replyLetterHandler now code req store
        = (.json 200 "Reply sent successfully",
           pre ++ { l with
                    hasReply := true
                    reply := some { text := req.text.getD ""
                                    signature := req.signature.getD ""
                                    image := req.image
                                    sent := now } } :: post) := by
  obtain ⟨hl, pre, post, hst, hpre⟩ := findOne_split hf
  refine ⟨pre, post, hst, ?_⟩
  have hupd : updateFirst store code
      { l with
        hasReply := true
        reply := some { text := req.text.getD ""
                        signature := req.signature.getD ""
                        image := req.image
                        sent := now } }
      = pre ++ { l with
                 hasReply := true
                 reply := some { text := req.text.getD ""
                                 signature := req.signature.getD ""
                                 image := req.image
                                 sent := now } } :: post := by
    rw [hst]; exact updateFirst_split hpre hl
  simp [replyLetterHandler, ht, hs, hi, hf, he, hupd]

/-- C9 witness: the frame theorem applied to a two-letter store where the
second letter "Y" is addressed; the first letter "X" and every non-reply
field of "Y" are unchanged. -/
theorem C9_reply_frame_witness :
    ∃ pre post,
      [{ secretCode := "X", «from» := "A", «to» := "B", text := "hi",
         signature := "A", image := none, sent := 0, expires := 100,
         hasReply := false, reply := none },
       { secretCode := "Y", «from» := "C", «to» := "D", text := "yo",
         signature := "C", image := none, sent := 0, expires := 100,
         hasReply := false, reply := none }]
        = pre ++ ({ secretCode := "Y", «from» := "C", «to» := "D", text := "yo",
                    signature := "C", image := none, sent := 0, expires := 100,
                    hasReply := false, reply := none } : Letter) :: post ∧
      replyLetterHandler 50 "Y"
        { text := some "t", signature := some "s", image := none }
        [{ secretCode := "X", «from» := "A", «to» := "B", text := "hi",
           signature := "A", image := none, sent := 0, expires := 100,
           hasReply := false, reply := none },
         { secretCode := "Y", «from» := "C", «to» := "D", text := "yo",
           signature := "C", image := none, sent := 0, expires := 100,
           hasReply := false, reply := none }]
        = (.json 200 "Reply sent successfully",
           pre ++ { ({ secretCode := "Y", «from» := "C", «to» := "D",
                       text := "yo", signature := "C", image := none,
                       sent := 0, expires := 100, hasReply := false,
                       reply := none } : Letter) with
                    hasReply := true
                    reply := some { text := (some "t").getD ""
                                    signature := (some "s").getD ""
                                    image := none
                                    sent := 50 } } :: post) :=
  C9_reply_frame 50 "Y"
    { text := some "t", signature := some "s", image := none }
    [{ secretCode := "X", «from» := "A", «to» := "B", text := "hi",
       signature := "A", image := none, sent := 0, expires := 100,
       hasReply := false, reply := none },
     { secretCode := "Y", «from» := "C", «to» := "D", text := "yo",
       signature := "C", image := none, sent := 0, expires := 100,
       hasReply := false, reply := none }]
    { secretCode := "Y", «from» := "C", «to» := "D", text := "yo",
      signature := "C", image := none, sent := 0, expires := 100,
      hasReply := false, reply := none }
    (by decide) (by decide) (by decide) (by decide) (by decide)

/-- C10: the expiry comparisons are strict on both sides of the boundary.
A letter whose `expires` equals the current time exactly is still returned
by Retrieve (the expired branch requires `now > expires`), and Sweep keeps
it as well (`deleteMany` matches only `expires < now`). -/
theorem C10_boundary_is_strict (now : Nat) (code : String)
    (store : List Letter) (l : Letter)
    (hc : code.isEmpty = false) (hf : findOne store code = some l)
    (he : l.expires = now) :
    getLetterHandler now code store = (.jsonLetter l, store) ∧
    (l ∈ store → l ∈ (cleanupExpiredLetters now store).2) := by
  constructor
  · have hlt : ¬ now > l.expires := by rw [he]; exact lt_irrefl now
    simp [getLetterHandler, hc, hf, hlt]
  · intro hm
    simp [cleanupExpiredLetters, List.mem_filter, hm, he]

/-- C10 witness: a letter expiring exactly at time 100 is still returned
by Retrieve at time 100 and survives Sweep at time 100. -/
theorem C10_boundary_witness :
    getLetterHandler 100 "X"
      [{ secretCode := "X", «from» := "A", «to» := "B", text := "hi",
         signature := "A", image := none, sent := 0, expires := 100,
         hasReply := false, reply := none }]
      = (.jsonLetter
          { secretCode := "X", «from» := "A", «to» := "B", text := "hi",
            signature := "A", image := none, sent := 0, expires := 100,
            hasReply := false, reply := none },
         [{ secretCode := "X", «from» := "A", «to» := "B", text := "hi",
            signature := "A", image := none, sent := 0, expires := 100,
            hasReply := false, reply := none }]) ∧
    (({ secretCode := "X", «from» := "A", «to» := "B", text := "hi",
        signature := "A", image := none, sent := 0, expires := 100,
        hasReply := false, reply := none } : Letter)
       ∈ [({ secretCode := "X", «from» := "A", «to» := "B", text := "hi",
             signature := "A", image := none, sent := 0, expires := 100,
             hasReply := false, reply := none } : Letter)] →
      ({ secretCode := "X", «from» := "A", «to» := "B", text := "hi",
         signature := "A", image := none, sent := 0, expires := 100,
         hasReply := false, reply := none } : Letter)
        ∈ (cleanupExpiredLetters 100
            [{ secretCode := "X", «from» := "A", «to» := "B", text := "hi",
               signature := "A", image := none, sent := 0, expires := 100,
               hasReply := false, reply := none }]).2) :=
  C10_boundary_is_strict 100 "X"
    [{ secretCode := "X", «from» := "A", «to» := "B", text := "hi",
       signature := "A", image := none, sent := 0, expires := 100,
       hasReply := false, reply := none }]
    { secretCode := "X", «from» := "A", «to» := "B", text := "hi",
      signature := "A", image := none, sent := 0, expires := 100,
      hasReply := false, reply := none }
    (by decide) (by decide) (by decide)

end LetterStore
